import Mathlib

/-!
Verification of the Finsense chat client (src/static/chatbot_script.js).

The client is embedded shallowly: the mutable fields of the ChatbotUI class
become a state record, each network call's outcome is an oracle parameter,
and every handler is a pure function from state (and oracles) to a new state
plus a list of observable UI/network events.  String-processing helpers
(escapeHtml, formatMarkdown, the JS trim) are embedded character-by-character,
mirroring the regular expressions the source uses.
-/

namespace Finsense

/-! ## JS string helpers -/

/-- Whitespace characters recognised by the JS String.prototype.trim used in
handleSendMessage (ASCII subset; the source never feeds it other whitespace). -/
def isJsWhitespace (c : Char) : Bool :=
  c = ' ' || c = '\t' || c = '\n' || c = '\r' || c = '\x0b' || c = '\x0c'

/-- Embedding of JS input.trim(): strip leading and trailing whitespace. -/
def jsTrim (s : String) : String :=
  String.mk (((s.toList.dropWhile isJsWhitespace).reverse.dropWhile isJsWhitespace).reverse)

/-- Per-character escaping performed by escapeHtml: assigning textContent and
reading back innerHTML serialises text nodes with these three entities. -/
def escChar (c : Char) : List Char :=
  if c = '&' then "&amp;".toList
  else if c = '<' then "&lt;".toList
  else if c = '>' then "&gt;".toList
  else [c]

/-- Embedding of escapeHtml (chatbot_script.js, lines 812-816). -/
def escapeHtml (text : String) : String :=
  String.mk ((text.toList.map escChar).flatten)

/-! ## formatMarkdown (chatbot_script.js, lines 670-691)

Each of the four regex replacements is embedded as a character-level scanner
with the same semantics as the JS global-replace on the source's patterns. -/

/-- If pat is a literal leading piece of s, return the remainder. -/
def dropLit : List Char → List Char → Option (List Char)
  | [], s => some s
  | _ :: _, [] => none
  | p :: ps, c :: cs => if c = p then dropLit ps cs else none

/-- Lazy search for the closing star pair of a bold span: the pattern
(.*?)\*\* with dot not matching a newline.  Returns the span body and the
text after the closing stars. -/
def findBoldClose : List Char → Option (List Char × List Char)
  | '*' :: '*' :: rest => some ([], rest)
  | c :: cs =>
    if c = '\n' then none
    else
      match findBoldClose cs with
      | some (inner, rest) => some (c :: inner, rest)
      | none => none
  | [] => none

/-- Global replace of the bold pattern with a strong element; fuel bounds the
scan (input length + 1 always suffices, each step consumes a character). -/
def replaceBoldAux : Nat → List Char → List Char
  | 0, s => s
  | _, [] => []
  | Nat.succ fuel, '*' :: '*' :: cs =>
    (match findBoldClose cs with
     | some (inner, rest) =>
        "<strong>".toList ++ inner ++ "</strong>".toList ++ replaceBoldAux fuel rest
     | none => '*' :: replaceBoldAux fuel ('*' :: cs))
  | Nat.succ fuel, c :: cs => c :: replaceBoldAux fuel cs

/-- Split on newline characters; the multiline anchors of the list-item regex
treat these as line boundaries. -/
def splitLines : List Char → List (List Char)
  | [] => [[]]
  | c :: cs =>
    if c = '\n' then [] :: splitLines cs
    else
      match splitLines cs with
      | l :: ls => (c :: l) :: ls
      | [] => [[c]]

/-- Rejoin lines with newlines. -/
def joinLines (ls : List (List Char)) : List Char :=
  List.intercalate ['\n'] ls

/-- In-line whitespace (the class matched inside a single line). -/
def isLineSpace (c : Char) : Bool :=
  c = ' ' || c = '\t' || c = '\x0b' || c = '\x0c' || c = '\r'

/-- One line of the list-item replacement: a bullet or dash, one or more
whitespace characters, then a non-empty greedy capture to end of line,
rewritten to a list-item element.  The second branch mirrors regex
backtracking when the whole remainder is whitespace. -/
def lineListItem (line : List Char) : List Char :=
  match line with
  | [] => []
  | m :: rest =>
    if m = '•' || m = '-' then
      let k := (rest.takeWhile isLineSpace).length
      if 1 ≤ k && k + 1 ≤ rest.length then
        "<li>".toList ++ rest.drop k ++ "</li>".toList
      else if 2 ≤ k && rest.length = k then
        "<li>".toList ++ rest.drop (k - 1) ++ "</li>".toList
      else m :: rest
    else m :: rest

/-- Does pat occur in s starting at index i? -/
def occursAt (pat s : List Char) (i : Nat) : Bool :=
  (dropLit pat (s.drop i)).isSome

/-- Index of the last occurrence of pat in s, if any. -/
def lastOcc (pat s : List Char) : Option Nat :=
  ((List.range (s.length + 1)).filter (occursAt pat s)).getLast?

/-- One unit of the list-run pattern: a literal list-item open tag, a greedy
in-line stretch up to the last close tag on the same line, then an optional
newline.  Returns the consumed text and the remainder. -/
def ulMatchUnit (s : List Char) : Option (List Char × List Char) :=
  match dropLit ("<li>".toList) s with
  | none => none
  | some rest =>
    let line := rest.takeWhile (fun c => !(c = '\n'))
    let after := rest.drop line.length
    match lastOcc ("</li>".toList) line with
    | none => none
    | some p =>
      let consumedLine := line.take (p + 5)
      let remLine := line.drop (p + 5)
      if remLine.isEmpty then
        match after with
        | '\n' :: after2 => some ("<li>".toList ++ consumedLine ++ ['\n'], after2)
        | _ => some ("<li>".toList ++ consumedLine, after)
      else
        some ("<li>".toList ++ consumedLine, remLine ++ after)

/-- Greedy repetition of the unit (the + quantifier). -/
def ulMatchRun : Nat → List Char → Option (List Char × List Char)
  | 0, _ => none
  | Nat.succ fuel, s =>
    match ulMatchUnit s with
    | none => none
    | some (u, rest) =>
      match ulMatchRun fuel rest with
      | some (us, rest2) => some (u ++ us, rest2)
      | none => some (u, rest)

/-- Global replace wrapping each maximal run of list items in a list
container element. -/
def ulWrapAux : Nat → List Char → List Char
  | 0, s => s
  | _, [] => []
  | Nat.succ fuel, c :: cs =>
    match ulMatchRun (c :: cs).length (c :: cs) with
    | some (m, rest) => "<ul>".toList ++ m ++ "</ul>".toList ++ ulWrapAux fuel rest
    | none => c :: ulWrapAux fuel cs

/-- Global literal replacement (used for the paragraph-break and line-break
rewrites); pat is non-empty in every use. -/
def replaceAllSub : Nat → List Char → List Char → List Char → List Char
  | 0, _, _, s => s
  | _, _, _, [] => []
  | Nat.succ fuel, pat, rep, c :: cs =>
    match dropLit pat (c :: cs) with
    | some rest => rep ++ replaceAllSub fuel pat rep rest
    | none => c :: replaceAllSub fuel pat rep cs

/-- Embedding of formatMarkdown (chatbot_script.js, lines 670-691): bold
spans, per-line list items, list-run wrapping, paragraph breaks, line breaks,
and the paragraph wrap when the text does not start with a tag. -/
def formatMarkdown (text : String) : String :=
  let t1 := replaceBoldAux (text.toList.length + 1) text.toList
  let t2 := joinLines ((splitLines t1).map lineListItem)
  let t3 := ulWrapAux (t2.length + 1) t2
  let t4 := replaceAllSub (t3.length + 1) "\n\n".toList "</p><p>".toList t3
  let t5 := replaceAllSub (t4.length + 1) "\n".toList "<br>".toList t4
  let t6 := if t5.head? = some '<' then t5 else "<p>".toList ++ t5 ++ "</p>".toList
  String.mk t6

/-- Rendered inner HTML of the content node produced by addMessage
(chatbot_script.js, lines 520-558): user text is escaped and wrapped in a
paragraph; bot text goes through formatMarkdown (instantly or via the
animation that appends the same formatted markup element by element). -/
def renderMessageContent (text : String) (role : String) : String :=
  if role = "user" then "<p>" ++ escapeHtml text ++ "</p>"
  else formatMarkdown text

/-! ## Client state, network oracles, events -/

/-- Body of a parsed chat response: session_id (absent modelled as none),
state tag, and bot message text. -/
structure ChatResponse where
  sessionId : Option String
  state : String
  botMessage : String
  deriving DecidableEq

/-- Outcome of one POST /api/chat round trip as observed by the client:
a 2xx response with parsed JSON body, a non-2xx status, or a rejection
(network failure or JSON parse failure). -/
inductive ChatOutcome where
  | ok (resp : ChatResponse)
  | httpError (status : Nat)
  | failure (msg : String)
  deriving DecidableEq

/-- Outcome of one POST /api/research round trip: a 2xx response with
results HTML, a non-2xx status, a fetch rejection, or a body-parse failure
(these two differ in how far the progress script ran). -/
inductive ResearchOutcome where
  | ok (html : String)
  | httpError (status : Nat)
  | fetchFailure (msg : String)
  | parseFailure (msg : String)
  deriving DecidableEq

/-- Outcome of one GET /api/history round trip: role/message pairs, a
non-2xx status (silently ignored), or a rejection (logged only). -/
inductive HistoryOutcome where
  | ok (msgs : List (String × String))
  | httpError (status : Nat)
  | failure (msg : String)
  deriving DecidableEq

/-- Observable actions of the client, in program order. -/
inductive Event where
  | setEnabled (b : Bool)
  | request (kind : String) (sid : Option String) (headers : List (String × String))
  | sessionAssigned (sid : Option String)
  | userMessage (text : String)
  | botMessage (text : String)
  | showTyping
  | hideTyping
  | addProgress (id : String) (text : String)
  | updateProgress (id : String) (text : String)
  | removeProgress (id : String)
  | displayResults (html : String)
  | focusInput
  deriving DecidableEq

/-- The mutable fields of the ChatbotUI instance that the claims concern. -/
structure ChatbotState where
  sessionId : Option String
  currentState : String
  inputEnabled : Bool
  accessToken : Option String
  isGuest : Bool
  isAuthenticated : Bool
  authEnabled : Bool
  flaskAuthMode : Bool
  progressMessageId : Option String
  deriving DecidableEq

/-- JS truthiness of the stored access token (null or the empty string are
falsy). -/
def tokenPresent : Option String → Bool
  | none => false
  | some t => !(t = "")

/-- Embedding of buildAuthHeaders (chatbot_script.js, lines 26-36). -/
def buildAuthHeaders : Option String → List (String × String)
  | none => [("Content-Type", "application/json")]
  | some t =>
    if t = "" then [("Content-Type", "application/json")]
    else [("Content-Type", "application/json"), ("Authorization", "Bearer " ++ t)]

/-- Embedding of getHeaders (chatbot_script.js, lines 295-306); an error
value models the thrown exception. -/
def getHeaders (s : ChatbotState) : Except String (List (String × String)) :=
  if s.flaskAuthMode then Except.ok [("Content-Type", "application/json")]
  else if s.authEnabled && !tokenPresent s.accessToken && !s.isGuest then
    Except.error "Please log in first."
  else Except.ok (buildAuthHeaders s.accessToken)

/-- Embedding of sendChatMessage (chatbot_script.js, lines 439-454): headers
are built before the fetch is dispatched, so a header error yields no
request event; otherwise the request carries the stored session id and the
result is the parsed body or the thrown error. -/
def sendChatMessage (s : ChatbotState) (net : ChatOutcome) :
    List Event × Except String ChatResponse :=
  match getHeaders s with
  | Except.error e => ([], Except.error e)
  | Except.ok hdrs =>
    match net with
    | ChatOutcome.ok resp =>
        ([Event.request "chat" s.sessionId hdrs], Except.ok resp)
    | ChatOutcome.httpError st =>
        ([Event.request "chat" s.sessionId hdrs],
         Except.error ("HTTP error! status: " ++ toString st))
    | ChatOutcome.failure m =>
        ([Event.request "chat" s.sessionId hdrs], Except.error m)

/-- Completion message shown after research results render. -/
def researchCompleteMessage : String :=
  "Analysis complete! You can ask me to analyze different sectors or start a new analysis by sending me a message."

/-- Embedding of startResearch (chatbot_script.js, lines 456-513): progress
indicator, input gate, the research request, cosmetic progress updates, and
the catch branch that removes the indicator and renders a failure message;
the finally branch re-enables input on every path.  pid models the generated
progress-message id. -/
def startResearch (s : ChatbotState) (rnet : ResearchOutcome) (pid : String) :
    ChatbotState × List Event :=
  let s1 : ChatbotState := { s with progressMessageId := some pid, inputEnabled := false }
  let ev0 : List Event :=
    [Event.addProgress pid "Initializing research...",
     Event.setEnabled false,
     Event.updateProgress pid "Pulling market data...",
     Event.updateProgress pid "Analyzing sector performance..."]
  match getHeaders s1 with
  | Except.error e =>
      ({ s1 with inputEnabled := true },
       ev0 ++
        [Event.removeProgress pid,
         Event.botMessage ("Research failed: " ++ e ++ ". Please try again."),
         Event.setEnabled true])
  | Except.ok hdrs =>
    match rnet with
    | ResearchOutcome.ok html =>
        ({ s1 with inputEnabled := true },
         ev0 ++
          [Event.request "research" s1.sessionId hdrs,
           Event.updateProgress pid "Evaluating risk profiles...",
           Event.updateProgress pid "Analyzing market news & trends...",
           Event.updateProgress pid "Finding stock opportunities...",
           Event.updateProgress pid "Generating AI insights...",
           Event.removeProgress pid,
           Event.displayResults html,
           Event.botMessage researchCompleteMessage,
           Event.setEnabled true])
    | ResearchOutcome.httpError st =>
        ({ s1 with inputEnabled := true },
         ev0 ++
          [Event.request "research" s1.sessionId hdrs,
           Event.removeProgress pid,
           Event.botMessage
             ("Research failed: Research failed: " ++ toString st ++ ". Please try again."),
           Event.setEnabled true])
    | ResearchOutcome.fetchFailure m =>
        ({ s1 with inputEnabled := true },
         ev0 ++
          [Event.request "research" s1.sessionId hdrs,
           Event.removeProgress pid,
           Event.botMessage ("Research failed: " ++ m ++ ". Please try again."),
           Event.setEnabled true])
    | ResearchOutcome.parseFailure m =>
        ({ s1 with inputEnabled := true },
         ev0 ++
          [Event.request "research" s1.sessionId hdrs,
           Event.updateProgress pid "Evaluating risk profiles...",
           Event.removeProgress pid,
           Event.botMessage ("Research failed: " ++ m ++ ". Please try again."),
           Event.setEnabled true])

/-- Embedding of handleSendMessage (chatbot_script.js, lines 394-437): trim
and early return on empty input, input gate, rendered user message, typing
indicator, the chat turn, session and state update plus bot message on
success (then the research trigger when the state is ready_to_research),
the catch branch rendering the error, and the finally branch re-enabling
input and focusing it. -/
def handleSendMessage (s : ChatbotState) (input : String)
    (net : ChatOutcome) (rnet : ResearchOutcome) (pid : String) :
    ChatbotState × List Event :=
  let message := jsTrim input
  if message = "" then (s, [])
  else
    let s1 : ChatbotState := { s with inputEnabled := false }
    let ev0 : List Event :=
      [Event.setEnabled false, Event.userMessage message, Event.showTyping]
    let reqEvs := (sendChatMessage s1 net).1
    match (sendChatMessage s1 net).2 with
    | Except.ok resp =>
        let s2 : ChatbotState :=
          { s1 with sessionId := resp.sessionId, currentState := resp.state }
        let ev1 := ev0 ++ reqEvs ++
          [Event.hideTyping, Event.sessionAssigned resp.sessionId,
           Event.botMessage resp.botMessage]
        if resp.state = "ready_to_research" then
          let r := startResearch s2 rnet pid
          ({ r.1 with inputEnabled := true },
           ev1 ++ r.2 ++ [Event.setEnabled true, Event.focusInput])
        else
          ({ s2 with inputEnabled := true },
           ev1 ++ [Event.setEnabled true, Event.focusInput])
    | Except.error e =>
        ({ s1 with inputEnabled := true },
         ev0 ++ reqEvs ++
          [Event.hideTyping,
           Event.botMessage ("Error: " ++ e ++ ". Please try again."),
           Event.setEnabled true, Event.focusInput])

/-- Embedding of loadWelcomeMessage (chatbot_script.js, lines 308-344): an
empty chat turn; on success the session and state are stored and the bot
message rendered (a missing bot message is treated as an invalid response);
every failure is rethrown to the caller. -/
def loadWelcomeMessage (s : ChatbotState) (net : ChatOutcome) :
    (ChatbotState × List Event) × Except String Unit :=
  match getHeaders s with
  | Except.error e => ((s, []), Except.error e)
  | Except.ok hdrs =>
    match net with
    | ChatOutcome.ok resp =>
        if resp.botMessage = "" then
          ((s, [Event.request "chat" s.sessionId hdrs]),
           Except.error "Invalid response from server")
        else
          (({ s with sessionId := resp.sessionId, currentState := resp.state },
            [Event.request "chat" s.sessionId hdrs,
             Event.sessionAssigned resp.sessionId,
             Event.botMessage resp.botMessage]),
           Except.ok ())
    | ChatOutcome.httpError st =>
        ((s, [Event.request "chat" s.sessionId hdrs]),
         Except.error ("HTTP error! status: " ++ toString st))
    | ChatOutcome.failure m =>
        ((s, [Event.request "chat" s.sessionId hdrs]), Except.error m)

/-- Embedding of loadChatHistory (chatbot_script.js, lines 254-281): returns
early unless authenticated with a token; otherwise one history request and
the replayed messages (user messages escaped, bot messages formatted,
without animation); failures are swallowed. -/
def loadChatHistory (s : ChatbotState) (h : HistoryOutcome) : List Event :=
  if s.isAuthenticated && tokenPresent s.accessToken then
    match getHeaders s with
    | Except.error _ => []
    | Except.ok hdrs =>
      match h with
      | HistoryOutcome.ok msgs =>
          Event.request "history" none hdrs ::
            msgs.map (fun m =>
              if m.1 = "user" then Event.userMessage m.2 else Event.botMessage m.2)
      | HistoryOutcome.httpError _ => [Event.request "history" none hdrs]
      | HistoryOutcome.failure _ => [Event.request "history" none hdrs]
  else []

/-- Inputs of one user-initiated chat turn: the raw input text, the two
network oracles, and the generated progress id. -/
structure TurnInput where
  raw : String
  net : ChatOutcome
  rnet : ResearchOutcome
  pid : String

/-- A sequence of chat turns, threading the state and concatenating traces. -/
def runTurns : ChatbotState → List TurnInput → ChatbotState × List Event
  | s, [] => (s, [])
  | s, t :: ts =>
    let r := handleSendMessage s t.raw t.net t.rnet t.pid
    let rest := runTurns r.1 ts
    (rest.1, r.2 ++ rest.2)

/-! ## Trace observers -/

/-- Is the event a network request of the given kind? -/
def isRequestOfKind (kind : String) (e : Event) : Bool :=
  match e with
  | Event.request k _ _ => k = kind
  | _ => false

/-- Number of requests of the given kind in a trace. -/
def countKindRequests (kind : String) : List Event → Nat
  | [] => 0
  | e :: rest => (if isRequestOfKind kind e = true then 1 else 0) + countKindRequests kind rest

/-- Is the event any network request? -/
def isRequest (e : Event) : Bool :=
  match e with
  | Event.request _ _ _ => true
  | _ => false

/-- Number of requests of any kind in a trace. -/
def countAllRequests : List Event → Nat
  | [] => 0
  | e :: rest => (if isRequest e = true then 1 else 0) + countAllRequests rest

/-- Session-tracking step: a session assignment replaces the tracked id. -/
def sessionStep (sid : Option String) (e : Event) : Option String :=
  match e with
  | Event.sessionAssigned ns => ns
  | _ => sid

/-- A request is well-sessioned when its body carries the tracked id. -/
def requestSessionOk (sid : Option String) (e : Event) : Bool :=
  match e with
  | Event.request _ rs _ => decide (rs = sid)
  | _ => true

/-- Every chat or research request in the trace carries the most recently
assigned session id (starting from sid). -/
def requestsUseSession (sid : Option String) : List Event → Bool
  | [] => true
  | e :: rest => requestSessionOk sid e && requestsUseSession (sessionStep sid e) rest

/-- The tracked session id after the whole trace. -/
def lastSession (sid : Option String) : List Event → Option String
  | [] => sid
  | e :: rest => lastSession (sessionStep sid e) rest

/-- Input-gate tracking step. -/
def enabledStep (cur : Bool) (e : Event) : Bool :=
  match e with
  | Event.setEnabled b => b
  | _ => cur

/-- The input-gate tracking value after the whole trace. -/
def enabledAfter (cur : Bool) : List Event → Bool
  | [] => cur
  | e :: rest => enabledAfter (enabledStep cur e) rest

/-- Requests, bot messages and result rendering must happen while the input
gate is closed. -/
def eventOkWhenDisabled (cur : Bool) (e : Event) : Bool :=
  match e with
  | Event.request _ _ _ => !cur
  | Event.botMessage _ => !cur
  | Event.displayResults _ => !cur
  | _ => true

/-- Every request and every piece of response handling in the trace occurs
while the input gate (tracked from cur) is closed. -/
def okDisabledDuring (cur : Bool) : List Event → Bool
  | [] => true
  | e :: rest => eventOkWhenDisabled cur e && okDisabledDuring (enabledStep cur e) rest

/-- No header with the given key in a header list. -/
def headerKeyAbsent (key : String) (hs : List (String × String)) : Bool :=
  hs.all (fun h => !(h.1 = key))

/-- The event carries no Authorization header. -/
def eventNoAuthHeader (e : Event) : Bool :=
  match e with
  | Event.request _ _ hs => headerKeyAbsent "Authorization" hs
  | _ => true

/-- No request in the trace carries an Authorization header. -/
def traceNoAuthHeaders (tr : List Event) : Bool :=
  tr.all eventNoAuthHeader

/-- Is the Except value an error? -/
def exceptIsErr {ε : Type} {α : Type} : Except ε α → Bool
  | Except.error _ => true
  | Except.ok _ => false

/-- A research outcome the client treats as a failure. -/
def researchFailed : ResearchOutcome → Bool
  | ResearchOutcome.ok _ => false
  | ResearchOutcome.httpError _ => true
  | ResearchOutcome.fetchFailure _ => true
  | ResearchOutcome.parseFailure _ => true

/-- A chat outcome the client treats as a failure. -/
def chatFailed : ChatOutcome → Bool
  | ChatOutcome.ok _ => false
  | ChatOutcome.httpError _ => true
  | ChatOutcome.failure _ => true

/-- Final stored session id of one send-message invocation: unchanged unless
the chat call returned successfully, in which case it is the session_id field
of the response. -/
def nextSessionId (s : ChatbotState) (input : String) (net : ChatOutcome) : Option String :=
  if jsTrim input = "" then s.sessionId
  else
    match (sendChatMessage { s with inputEnabled := false } net).2 with
    | Except.ok resp => resp.sessionId
    | Except.error _ => s.sessionId

/-- Does pat occur anywhere in s? -/
def containsSub (pat s : String) : Bool :=
  ((List.range (s.toList.length + 1)).filter (occursAt pat.toList s.toList)) ≠ []

/-- Number of positions of s at which pat occurs. -/
def subOccurrences (pat s : String) : Nat :=
  ((List.range (s.toList.length + 1)).filter (occursAt pat.toList s.toList)).length

/-! ## Concrete fixtures used by witnesses -/

/-- A state with authentication disabled, mid-conversation. -/
def demoState : ChatbotState :=
  { sessionId := some "s1", currentState := "collecting_preferences",
    inputEnabled := true, accessToken := none, isGuest := false,
    isAuthenticated := false, authEnabled := false, flaskAuthMode := false,
    progressMessageId := none }

/-- A token-mode state holding an access token. -/
def tokenState : ChatbotState :=
  { sessionId := none, currentState := "initial", inputEnabled := true,
    accessToken := some "tok", isGuest := false, isAuthenticated := true,
    authEnabled := true, flaskAuthMode := false, progressMessageId := none }

/-- A guest-mode state (no access token). -/
def guestState : ChatbotState :=
  { sessionId := some "g1", currentState := "initial", inputEnabled := true,
    accessToken := none, isGuest := true, isAuthenticated := false,
    authEnabled := true, flaskAuthMode := false, progressMessageId := none }

/-- A token-mode state before any token has been obtained. -/
def lockedState : ChatbotState :=
  { sessionId := none, currentState := "initial", inputEnabled := false,
    accessToken := none, isGuest := false, isAuthenticated := false,
    authEnabled := true, flaskAuthMode := false, progressMessageId := none }

/-- A chat response signalling readiness to research. -/
def readyResp : ChatResponse :=
  { sessionId := some "s1", state := "ready_to_research", botMessage := "Starting!" }

/-! ## Helper lemmas -/

theorem getHeaders_eta (s : ChatbotState) (sid : Option String) (cst : String)
    (b : Bool) (p : Option String) :
    getHeaders { s with sessionId := sid, currentState := cst,
                        inputEnabled := b, progressMessageId := p } = getHeaders s := rfl

theorem lastSession_append (sid : Option String) (t1 t2 : List Event) :
    lastSession sid (t1 ++ t2) = lastSession (lastSession sid t1) t2 := by
  induction t1 generalizing sid with
  | nil => rfl
  | cons e rest ih => simp [lastSession, ih]

theorem requestsUseSession_append (sid : Option String) (t1 t2 : List Event) :
    requestsUseSession sid (t1 ++ t2)
      = (requestsUseSession sid t1 && requestsUseSession (lastSession sid t1) t2) := by
  induction t1 generalizing sid with
  | nil => rfl
  | cons e rest ih => simp [requestsUseSession, lastSession, ih, Bool.and_assoc]

theorem enabledAfter_append (cur : Bool) (t1 t2 : List Event) :
    enabledAfter cur (t1 ++ t2) = enabledAfter (enabledAfter cur t1) t2 := by
  induction t1 generalizing cur with
  | nil => rfl
  | cons e rest ih => simp [enabledAfter, ih]

theorem okDisabledDuring_append (cur : Bool) (t1 t2 : List Event) :
    okDisabledDuring cur (t1 ++ t2)
      = (okDisabledDuring cur t1 && okDisabledDuring (enabledAfter cur t1) t2) := by
  induction t1 generalizing cur with
  | nil => rfl
  | cons e rest ih => simp [okDisabledDuring, enabledAfter, ih, Bool.and_assoc]

theorem countKindRequests_append (k : String) (t1 t2 : List Event) :
    countKindRequests k (t1 ++ t2) = countKindRequests k t1 + countKindRequests k t2 := by
  induction t1 with
  | nil => simp [countKindRequests]
  | cons e rest ih => simp [countKindRequests, ih]; omega

theorem append_split3 (a b c : String) (h : a ++ b = c) (t : String) :
    a ++ (b ++ t) = c ++ t := by
  rw [← h, String.append_assoc]

theorem startResearch_state (s : ChatbotState) (rnet : ResearchOutcome) (pid : String) :
    (startResearch s rnet pid).1
      = { s with progressMessageId := some pid, inputEnabled := true } := by
  simp only [startResearch]
  split
  · rfl
  · split <;> rfl

theorem startResearch_count_research (s : ChatbotState) (rnet : ResearchOutcome)
    (pid : String) (hdrs : List (String × String))
    (hg : getHeaders s = Except.ok hdrs) :
    countKindRequests "research" (startResearch s rnet pid).2 = 1 := by
  have hg1 : getHeaders { s with progressMessageId := some pid, inputEnabled := false }
      = Except.ok hdrs := hg
  simp only [startResearch, hg1]
  cases rnet <;> simp [countKindRequests, isRequestOfKind]

theorem startResearch_session (s : ChatbotState) (rnet : ResearchOutcome) (pid : String) :
    requestsUseSession s.sessionId (startResearch s rnet pid).2 = true ∧
    lastSession s.sessionId (startResearch s rnet pid).2 = s.sessionId := by
  simp only [startResearch]
  split
  · simp [requestsUseSession, requestSessionOk, sessionStep, lastSession]
  · split <;> simp [requestsUseSession, requestSessionOk, sessionStep, lastSession]

theorem startResearch_disabled (cur : Bool) (s : ChatbotState)
    (rnet : ResearchOutcome) (pid : String) :
    okDisabledDuring cur (startResearch s rnet pid).2 = true ∧
    enabledAfter cur (startResearch s rnet pid).2 = true := by
  simp only [startResearch]
  split
  · simp [okDisabledDuring, eventOkWhenDisabled, enabledStep, enabledAfter]
  · split <;> simp [okDisabledDuring, eventOkWhenDisabled, enabledStep, enabledAfter]

theorem handleSendMessage_session (s : ChatbotState) (input : String) (net : ChatOutcome)
    (rnet : ResearchOutcome) (pid : String) :
    requestsUseSession s.sessionId (handleSendMessage s input net rnet pid).2 = true ∧
    lastSession s.sessionId (handleSendMessage s input net rnet pid).2
      = (handleSendMessage s input net rnet pid).1.sessionId := by
  by_cases hmsg : jsTrim input = ""
  · simp [handleSendMessage, hmsg, requestsUseSession, lastSession]
  · simp only [handleSendMessage, sendChatMessage, if_neg hmsg]
    cases hgh : getHeaders { s with inputEnabled := false } with
    | error e =>
      simp [requestsUseSession, requestSessionOk, sessionStep, lastSession]
    | ok hdrs =>
      cases net with
      | ok r =>
        by_cases hst : r.state = "ready_to_research"
        · simp only [if_pos hst]
          have h1 := startResearch_session
            { s with sessionId := r.sessionId, currentState := r.state,
                     inputEnabled := false } rnet pid
          have h2 := startResearch_state
            { s with sessionId := r.sessionId, currentState := r.state,
                     inputEnabled := false } rnet pid
          simp [requestsUseSession_append, lastSession_append,
                requestsUseSession, requestSessionOk, sessionStep, lastSession,
                h1.1, h1.2, h2]
        · simp [if_neg hst, requestsUseSession, requestSessionOk, sessionStep, lastSession]
      | httpError st =>
        simp [requestsUseSession, requestSessionOk, sessionStep, lastSession]
      | failure m =>
        simp [requestsUseSession, requestSessionOk, sessionStep, lastSession]

theorem handleSendMessage_sessionId (s : ChatbotState) (input : String) (net : ChatOutcome)
    (rnet : ResearchOutcome) (pid : String) :
    (handleSendMessage s input net rnet pid).1.sessionId = nextSessionId s input net := by
  by_cases hmsg : jsTrim input = ""
  · simp [handleSendMessage, nextSessionId, hmsg]
  · simp only [handleSendMessage, nextSessionId, sendChatMessage, if_neg hmsg]
    cases hgh : getHeaders { s with inputEnabled := false } with
    | error e => simp
    | ok hdrs =>
      cases net with
      | ok r =>
        by_cases hst : r.state = "ready_to_research"
        · have h2 := startResearch_state
            { s with sessionId := r.sessionId, currentState := r.state,
                     inputEnabled := false } rnet pid
          simp [if_pos hst, h2]
        · simp [if_neg hst]
      | httpError st => simp
      | failure m => simp

theorem escChar_no_markup (c : Char) :
    (escChar c).all (fun d => !(d = '<') && !(d = '>')) = true := by
  unfold escChar
  by_cases h1 : c = '&'
  · simp [h1]
  · by_cases h2 : c = '<'
    · simp [h1, h2]
    · by_cases h3 : c = '>'
      · simp [h1, h2, h3]
      · simp [h1, h2, h3]

theorem escList_no_markup (l : List Char) :
    ((l.map escChar).flatten).all (fun d => !(d = '<') && !(d = '>')) = true := by
  induction l with
  | nil => rfl
  | cons c cs ih =>
    simp only [List.map_cons, List.flatten_cons, List.all_append]
    rw [escChar_no_markup]
    simpa using ih

theorem escapeHtml_no_markup (text : String) :
    (escapeHtml text).toList.all (fun d => !(d = '<') && !(d = '>')) = true :=
  escList_no_markup text.toList

theorem jsTrim_of_all_ws (input : String) (h : input.toList.all isJsWhitespace = true) :
    jsTrim input = "" := by
  unfold jsTrim
  have h1 : input.toList.dropWhile isJsWhitespace = [] := by
    rw [List.dropWhile_eq_nil_iff]
    intro x hx
    exact List.all_eq_true.mp h x hx
  rw [h1]
  rfl

theorem getHeaders_no_auth (s : ChatbotState) (hnt : tokenPresent s.accessToken = false)
    (hdrs : List (String × String)) (hg : getHeaders s = Except.ok hdrs) :
    headerKeyAbsent "Authorization" hdrs = true := by
  unfold getHeaders at hg
  by_cases hf : s.flaskAuthMode = true
  · rw [if_pos hf] at hg
    cases hg
    decide
  · rw [if_neg hf] at hg
    by_cases hc : (s.authEnabled && !tokenPresent s.accessToken && !s.isGuest) = true
    · rw [if_pos hc] at hg
      cases hg
    · rw [if_neg hc] at hg
      cases hg
      unfold buildAuthHeaders
      cases ha : s.accessToken with
      | none => decide
      | some t =>
        rw [ha] at hnt
        unfold tokenPresent at hnt
        simp at hnt
        simp [hnt, headerKeyAbsent]

theorem startResearch_no_auth (s : ChatbotState) (rnet : ResearchOutcome) (pid : String)
    (hnt : tokenPresent s.accessToken = false) :
    traceNoAuthHeaders (startResearch s rnet pid).2 = true := by
  simp only [startResearch]
  split
  · simp [traceNoAuthHeaders, eventNoAuthHeader]
  · rename_i hdrs heq
    have habs := getHeaders_no_auth _ hnt hdrs heq
    split <;> simp [traceNoAuthHeaders, eventNoAuthHeader, habs]

theorem handleSendMessage_no_auth (s : ChatbotState) (input : String) (net : ChatOutcome)
    (rnet : ResearchOutcome) (pid : String)
    (hnt : tokenPresent s.accessToken = false) :
    traceNoAuthHeaders (handleSendMessage s input net rnet pid).2 = true := by
  by_cases hmsg : jsTrim input = ""
  · simp [handleSendMessage, hmsg, traceNoAuthHeaders]
  · simp only [handleSendMessage, sendChatMessage, if_neg hmsg]
    cases hgh : getHeaders { s with inputEnabled := false } with
    | error e => simp [traceNoAuthHeaders, eventNoAuthHeader]
    | ok hdrs =>
      have habs := getHeaders_no_auth _ hnt hdrs hgh
      cases net with
      | ok r =>
        by_cases hst : r.state = "ready_to_research"
        · simp only [if_pos hst]
          have h1 := startResearch_no_auth
            { s with sessionId := r.sessionId, currentState := r.state,
                     inputEnabled := false } rnet pid hnt
          simp [traceNoAuthHeaders, eventNoAuthHeader, habs] at h1 ⊢
          exact h1
        · simp [if_neg hst, traceNoAuthHeaders, eventNoAuthHeader, habs]
      | httpError st => simp [traceNoAuthHeaders, eventNoAuthHeader, habs]
      | failure m => simp [traceNoAuthHeaders, eventNoAuthHeader, habs]

theorem loadWelcomeMessage_no_auth (s : ChatbotState) (net : ChatOutcome)
    (hnt : tokenPresent s.accessToken = false) :
    traceNoAuthHeaders (loadWelcomeMessage s net).1.2 = true := by
  simp only [loadWelcomeMessage]
  split
  · simp [traceNoAuthHeaders]
  · rename_i hdrs heq
    have habs := getHeaders_no_auth _ hnt hdrs heq
    cases net with
    | ok r =>
      by_cases hb : r.botMessage = ""
      · simp [if_pos hb, traceNoAuthHeaders, eventNoAuthHeader, habs]
      · simp [if_neg hb, traceNoAuthHeaders, eventNoAuthHeader, habs]
    | httpError st => simp [traceNoAuthHeaders, eventNoAuthHeader, habs]
    | failure m => simp [traceNoAuthHeaders, eventNoAuthHeader, habs]

theorem loadChatHistory_no_auth (s : ChatbotState) (h : HistoryOutcome)
    (hnt : tokenPresent s.accessToken = false) :
    traceNoAuthHeaders (loadChatHistory s h) = true := by
  unfold loadChatHistory
  rw [if_neg (by simp [hnt])]
  rfl

theorem getHeaders_err_of_token_mode (s : ChatbotState)
    (hauth : s.authEnabled = true) (hf : s.flaskAuthMode = false)
    (hnt : tokenPresent s.accessToken = false) (hng : s.isGuest = false) :
    getHeaders s = Except.error "Please log in first." := by
  unfold getHeaders
  rw [if_neg (by simp [hf]), if_pos (by simp [hauth, hf, hnt, hng])]

/-! ## Claim theorems -/

/-- Claim C1: for every chat-turn response whose state field equals the
literal ready_to_research, the send-message handler issues exactly one
research request before returning; for every response with any other state
value it issues none.  The hypotheses state that a non-blank input was sent
and the chat turn produced a parsed response. -/
theorem claim1_ready_state_triggers_single_research (s : ChatbotState) (input : String)
    (net : ChatOutcome) (rnet : ResearchOutcome) (pid : String) (resp : ChatResponse)
    (hmsg : jsTrim input ≠ "")
    (hok : (sendChatMessage { s with inputEnabled := false } net).2 = Except.ok resp) :
    countKindRequests "research" (handleSendMessage s input net rnet pid).2
      = (if resp.state = "ready_to_research" then 1 else 0) := by
  obtain ⟨hdrs, hg⟩ : ∃ hdrs,
      getHeaders { s with inputEnabled := false } = Except.ok hdrs := by
    cases hgh : getHeaders { s with inputEnabled := false } with
    | ok h => exact ⟨h, rfl⟩
    | error e =>
      unfold sendChatMessage at hok
      rw [hgh] at hok
      simp at hok
  cases net with
  | httpError st =>
    unfold sendChatMessage at hok
    rw [hg] at hok
    simp at hok
  | failure m =>
    unfold sendChatMessage at hok
    rw [hg] at hok
    simp at hok
  | ok r =>
    have hr : r = resp := by
      unfold sendChatMessage at hok
      rw [hg] at hok
      simpa using hok
    subst hr
    have hg0 : getHeaders s = Except.ok hdrs := hg
    simp only [handleSendMessage, sendChatMessage, hg, if_neg hmsg]
    by_cases hst : r.state = "ready_to_research"
    · simp [hst, countKindRequests_append, countKindRequests, isRequestOfKind]
      exact startResearch_count_research _ rnet pid hdrs hg0
    · simp [hst, countKindRequests_append, countKindRequests, isRequestOfKind]

/-- Witness for claim C1: a concrete turn whose response carries
ready_to_research yields exactly one research request. -/
theorem claim1_ready_state_triggers_single_research_witness :
    jsTrim "analyze tech" ≠ ""
    ∧ (sendChatMessage { demoState with inputEnabled := false }
        (ChatOutcome.ok readyResp)).2 = Except.ok readyResp
    ∧ countKindRequests "research"
        (handleSendMessage demoState "analyze tech" (ChatOutcome.ok readyResp)
          (ResearchOutcome.ok "<div>r</div>") "p1").2
      = (if readyResp.state = "ready_to_research" then 1 else 0) :=
  ⟨by decide, by rfl,
   claim1_ready_state_triggers_single_research demoState "analyze tech"
     (ChatOutcome.ok readyResp) (ResearchOutcome.ok "<div>r</div>") "p1" readyResp
     (by decide) (by rfl)⟩

/-- Claim C2: over any sequence of chat turns, every chat and research
request carries the most recently returned session id, and the stored id is
only ever replaced by the session_id field of a successful chat response,
never cleared or changed otherwise. -/
theorem claim2_session_id_invariant (s : ChatbotState) (turns : List TurnInput) :
    requestsUseSession s.sessionId (runTurns s turns).2 = true
    ∧ lastSession s.sessionId (runTurns s turns).2 = (runTurns s turns).1.sessionId
    ∧ ∀ input net rnet pid,
        (handleSendMessage s input net rnet pid).1.sessionId = nextSessionId s input net := by
  refine ⟨?_, ?_, fun input net rnet pid => handleSendMessage_sessionId s input net rnet pid⟩
  · induction turns generalizing s with
    | nil => rfl
    | cons t ts ih =>
      have h1 := handleSendMessage_session s t.raw t.net t.rnet t.pid
      simp only [runTurns]
      rw [requestsUseSession_append, h1.1, h1.2]
      simp [ih]
  · induction turns generalizing s with
    | nil => rfl
    | cons t ts ih =>
      have h1 := handleSendMessage_session s t.raw t.net t.rnet t.pid
      simp only [runTurns]
      rw [lastSession_append, h1.2]
      exact ih _

/-- Claim C3: getHeaders raises exactly when auth is enabled, the mode is
token-based (not Flask-session), no token has been obtained and guest mode
is off; in every other configuration it returns headers carrying an
Authorization bearer entry exactly when a token is present.  The hypothesis
records that in Flask-session mode no access token is ever obtained (the
Auth0 client is never created in that mode). -/
theorem claim3_getHeaders_raises_iff (s : ChatbotState)
    (hflask : s.flaskAuthMode = true → tokenPresent s.accessToken = false) :
    (exceptIsErr (getHeaders s) = true ↔
      (s.authEnabled = true ∧ s.flaskAuthMode = false ∧
       tokenPresent s.accessToken = false ∧ s.isGuest = false))
    ∧ ∀ hdrs, getHeaders s = Except.ok hdrs →
        (headerKeyAbsent "Authorization" hdrs = false ↔ tokenPresent s.accessToken = true) := by
  unfold getHeaders
  by_cases hf : s.flaskAuthMode = true
  · have ht := hflask hf
    constructor
    · simp [hf, exceptIsErr]
    · intro hdrs hok
      simp only [hf, if_true] at hok
      cases hok
      simp [headerKeyAbsent, ht]
  · have hf2 : s.flaskAuthMode = false := by
      cases hb : s.flaskAuthMode
      · rfl
      · exact absurd hb hf
    by_cases hc : (s.authEnabled && !tokenPresent s.accessToken && !s.isGuest) = true
    · constructor
      · simp only [hf2, if_false, hc, if_true]
        simp only [Bool.and_eq_true, Bool.not_eq_true'] at hc
        simp [exceptIsErr, hc.1.1, hc.1.2, hc.2]
      · intro hdrs hok
        simp [hf2, hc] at hok
    · constructor
      · simp only [hf2, if_false, Bool.not_eq_true] at *
        simp only [hc, if_false]
        constructor
        · intro habs
          simp [exceptIsErr] at habs
        · rintro ⟨h1, h2, h3, h4⟩
          rw [h1, h3, h4] at hc
          simp at hc
      · intro hdrs hok
        simp only [hf2, Bool.false_eq_true, if_false, hc, Bool.not_eq_true] at hok
        cases hok
        unfold buildAuthHeaders
        cases ha : s.accessToken with
        | none => simp [headerKeyAbsent, tokenPresent]
        | some t =>
          by_cases hts : t = ""
          · simp [hts, headerKeyAbsent, tokenPresent]
          · simp [hts, headerKeyAbsent, tokenPresent]

/-- Witness for claim C3: with a token present in token-based mode no error
is raised, and the returned headers carry the Authorization entry. -/
theorem claim3_getHeaders_raises_iff_witness :
    (tokenState.flaskAuthMode = true → tokenPresent tokenState.accessToken = false)
    ∧ (exceptIsErr (getHeaders tokenState) = true ↔
        (tokenState.authEnabled = true ∧ tokenState.flaskAuthMode = false ∧
         tokenPresent tokenState.accessToken = false ∧ tokenState.isGuest = false))
    ∧ (getHeaders tokenState
        = Except.ok [("Content-Type", "application/json"),
                     ("Authorization", "Bearer tok")] →
       (headerKeyAbsent "Authorization"
          [("Content-Type", "application/json"), ("Authorization", "Bearer tok")] = false
        ↔ tokenPresent tokenState.accessToken = true)) :=
  ⟨by decide,
   (claim3_getHeaders_raises_iff tokenState (by decide)).1,
   (claim3_getHeaders_raises_iff tokenState (by decide)).2
     [("Content-Type", "application/json"), ("Authorization", "Bearer tok")]⟩

/-- Claim C4: in both the send-message handler and the research trigger,
every network request and every piece of response handling happens while the
input control is disabled, and the control is re-enabled on every exit path
(for the handler, on every invocation that passes the blank-input guard;
a blank invocation dispatches nothing and never touches the control). -/
theorem claim4_input_gate_discipline (s : ChatbotState) (input : String)
    (net : ChatOutcome) (rnet : ResearchOutcome) (pid : String) :
    okDisabledDuring s.inputEnabled (handleSendMessage s input net rnet pid).2 = true
    ∧ (jsTrim input ≠ "" → (handleSendMessage s input net rnet pid).1.inputEnabled = true)
    ∧ okDisabledDuring s.inputEnabled (startResearch s rnet pid).2 = true
    ∧ (startResearch s rnet pid).1.inputEnabled = true := by
  refine ⟨?_, ?_, (startResearch_disabled s.inputEnabled s rnet pid).1, ?_⟩
  · by_cases hmsg : jsTrim input = ""
    · simp [handleSendMessage, hmsg, okDisabledDuring]
    · simp only [handleSendMessage, sendChatMessage, if_neg hmsg]
      cases hgh : getHeaders { s with inputEnabled := false } with
      | error e => simp [okDisabledDuring, eventOkWhenDisabled, enabledStep]
      | ok hdrs =>
        cases net with
        | ok r =>
          by_cases hst : r.state = "ready_to_research"
          · simp only [if_pos hst]
            have h1 := startResearch_disabled false
              { s with sessionId := r.sessionId, currentState := r.state,
                       inputEnabled := false } rnet pid
            simp [okDisabledDuring_append, enabledAfter_append,
                  okDisabledDuring, eventOkWhenDisabled, enabledStep, enabledAfter,
                  h1.1, h1.2]
          · simp [if_neg hst, okDisabledDuring, eventOkWhenDisabled, enabledStep]
        | httpError st => simp [okDisabledDuring, eventOkWhenDisabled, enabledStep]
        | failure m => simp [okDisabledDuring, eventOkWhenDisabled, enabledStep]
  · intro hmsg
    simp only [handleSendMessage, sendChatMessage, if_neg hmsg]
    cases hgh : getHeaders { s with inputEnabled := false } with
    | error e => simp
    | ok hdrs =>
      cases net with
      | ok r =>
        by_cases hst : r.state = "ready_to_research"
        · simp [if_pos hst]
        · simp [if_neg hst]
      | httpError st => simp
      | failure m => simp
  · rw [startResearch_state]

/-- Witness for claim C4 at a concrete turn that triggers a failing
research call. -/
theorem claim4_input_gate_discipline_witness :
    jsTrim "hello" ≠ ""
    ∧ okDisabledDuring demoState.inputEnabled
        (handleSendMessage demoState "hello" (ChatOutcome.ok readyResp)
          (ResearchOutcome.httpError 500) "p1").2 = true
    ∧ (handleSendMessage demoState "hello" (ChatOutcome.ok readyResp)
        (ResearchOutcome.httpError 500) "p1").1.inputEnabled = true
    ∧ okDisabledDuring demoState.inputEnabled
        (startResearch demoState (ResearchOutcome.httpError 500) "p1").2 = true
    ∧ (startResearch demoState (ResearchOutcome.httpError 500) "p1").1.inputEnabled = true := by
  have h := claim4_input_gate_discipline demoState "hello" (ChatOutcome.ok readyResp)
    (ResearchOutcome.httpError 500) "p1"
  exact ⟨by decide, h.1, h.2.1 (by decide), h.2.2.1, h.2.2.2⟩

/-- Claim C5: formatMarkdown on the input with a bold span and two dash list
lines produces markup in which bold is wrapped in a strong element, item1
and item2 each appear as list items, and both list items sit inside a single
list container (exactly one opening and one closing list tag, with both
items between them). -/
theorem claim5_formatMarkdown_example :
    formatMarkdown "**bold** text\n- item1\n- item2"
      = "<strong>bold</strong> text<br>" ++ "<ul>"
          ++ "<li>item1</li><br><li>item2</li>" ++ "</ul>"
    ∧ containsSub "<strong>bold</strong>"
        (formatMarkdown "**bold** text\n- item1\n- item2") = true
    ∧ subOccurrences "<ul>" (formatMarkdown "**bold** text\n- item1\n- item2") = 1
    ∧ subOccurrences "</ul>" (formatMarkdown "**bold** text\n- item1\n- item2") = 1
    ∧ containsSub "<li>item1</li>" "<li>item1</li><br><li>item2</li>" = true
    ∧ containsSub "<li>item2</li>" "<li>item1</li><br><li>item2</li>" = true := by
  refine ⟨?_, ?_, ?_, ?_, ?_, ?_⟩ <;> decide

/-- Claim C6: in guest mode with no access token, no request of any handler
ever carries an Authorization header; in token-based mode before a token is
obtained, no chat, research or history request is dispatched at all. -/
theorem claim6_guest_and_tokenless_safety (s : ChatbotState) (input : String)
    (net : ChatOutcome) (rnet : ResearchOutcome) (pid : String) (hnet : HistoryOutcome) :
    (s.isGuest = true → tokenPresent s.accessToken = false →
      traceNoAuthHeaders (handleSendMessage s input net rnet pid).2 = true
      ∧ traceNoAuthHeaders (startResearch s rnet pid).2 = true
      ∧ traceNoAuthHeaders (loadWelcomeMessage s net).1.2 = true
      ∧ traceNoAuthHeaders (loadChatHistory s hnet) = true)
    ∧ (s.authEnabled = true → s.flaskAuthMode = false →
       tokenPresent s.accessToken = false → s.isGuest = false →
      countAllRequests (handleSendMessage s input net rnet pid).2 = 0
      ∧ countAllRequests (startResearch s rnet pid).2 = 0
      ∧ countAllRequests (loadWelcomeMessage s net).1.2 = 0
      ∧ countAllRequests (loadChatHistory s hnet) = 0) := by
  constructor
  · intro _ hnt
    exact ⟨handleSendMessage_no_auth s input net rnet pid hnt,
           startResearch_no_auth s rnet pid hnt,
           loadWelcomeMessage_no_auth s net hnt,
           loadChatHistory_no_auth s hnet hnt⟩
  · intro hauth hf hnt hng
    have herr := getHeaders_err_of_token_mode s hauth hf hnt hng
    refine ⟨?_, ?_, ?_, ?_⟩
    · by_cases hmsg : jsTrim input = ""
      · simp [handleSendMessage, hmsg, countAllRequests]
      · have herr1 : getHeaders { s with inputEnabled := false }
            = Except.error "Please log in first." := herr
        simp only [handleSendMessage, sendChatMessage, if_neg hmsg, herr1]
        simp [countAllRequests, isRequest]
    · have herr1 : getHeaders { s with progressMessageId := some pid, inputEnabled := false }
          = Except.error "Please log in first." := herr
      simp only [startResearch, herr1]
      simp [countAllRequests, isRequest]
    · simp only [loadWelcomeMessage, herr]
      rfl
    · unfold loadChatHistory
      rw [if_neg (by simp [hnt])]
      rfl

/-- Witness for claim C6: a guest turn carries no Authorization header, and
a tokenless token-mode turn dispatches no request. -/
theorem claim6_guest_and_tokenless_safety_witness :
    traceNoAuthHeaders (handleSendMessage guestState "hello" (ChatOutcome.ok readyResp)
      (ResearchOutcome.ok "<div>r</div>") "p1").2 = true
    ∧ countAllRequests (handleSendMessage lockedState "hello" (ChatOutcome.ok readyResp)
      (ResearchOutcome.ok "<div>r</div>") "p1").2 = 0 :=
  ⟨((claim6_guest_and_tokenless_safety guestState "hello" (ChatOutcome.ok readyResp)
      (ResearchOutcome.ok "<div>r</div>") "p1" (HistoryOutcome.ok [])).1
      (by decide) (by decide)).1,
   ((claim6_guest_and_tokenless_safety lockedState "hello" (ChatOutcome.ok readyResp)
      (ResearchOutcome.ok "<div>r</div>") "p1" (HistoryOutcome.ok [])).2
      (by decide) (by decide) (by decide) (by decide)).1⟩

/-- Claim C7: every failing research call removes the progress indicator it
created, renders a bot message beginning with the text Research failed, and
leaves the stored session id and conversational state unchanged. -/
theorem claim7_research_failure_cleanup (s : ChatbotState) (rnet : ResearchOutcome)
    (pid : String) (hfail : researchFailed rnet = true) :
    Event.removeProgress pid ∈ (startResearch s rnet pid).2
    ∧ (∃ rest, Event.botMessage ("Research failed" ++ rest) ∈ (startResearch s rnet pid).2)
    ∧ (startResearch s rnet pid).1.sessionId = s.sessionId
    ∧ (startResearch s rnet pid).1.currentState = s.currentState := by
  refine ⟨?_, ?_, by rw [startResearch_state], by rw [startResearch_state]⟩
  · simp only [startResearch]
    split
    · simp
    · cases rnet with
      | ok html => simp [researchFailed] at hfail
      | httpError st => simp
      | fetchFailure m => simp
      | parseFailure m => simp
  · simp only [startResearch]
    split
    · rename_i e heq
      refine ⟨": " ++ (e ++ ". Please try again."), ?_⟩
      rw [append_split3 "Research failed" ": " "Research failed: " (by decide)]
      simp [String.append_assoc]
    · cases rnet with
      | ok html => simp [researchFailed] at hfail
      | httpError st =>
        refine ⟨": Research failed: " ++ (toString st ++ ". Please try again."), ?_⟩
        rw [append_split3 "Research failed" ": Research failed: "
              "Research failed: Research failed: " (by decide)]
        simp [String.append_assoc]
      | fetchFailure m =>
        refine ⟨": " ++ (m ++ ". Please try again."), ?_⟩
        rw [append_split3 "Research failed" ": " "Research failed: " (by decide)]
        simp [String.append_assoc]
      | parseFailure m =>
        refine ⟨": " ++ (m ++ ". Please try again."), ?_⟩
        rw [append_split3 "Research failed" ": " "Research failed: " (by decide)]
        simp [String.append_assoc]

/-- Witness for claim C7 at a concrete failing research call (HTTP 500). -/
theorem claim7_research_failure_cleanup_witness :
    researchFailed (ResearchOutcome.httpError 500) = true
    ∧ (Event.removeProgress "p1"
        ∈ (startResearch demoState (ResearchOutcome.httpError 500) "p1").2
      ∧ (∃ rest, Event.botMessage ("Research failed" ++ rest)
          ∈ (startResearch demoState (ResearchOutcome.httpError 500) "p1").2)
      ∧ (startResearch demoState (ResearchOutcome.httpError 500) "p1").1.sessionId
          = demoState.sessionId
      ∧ (startResearch demoState (ResearchOutcome.httpError 500) "p1").1.currentState
          = demoState.currentState) :=
  ⟨by decide,
   claim7_research_failure_cleanup demoState (ResearchOutcome.httpError 500) "p1" (by decide)⟩

/-- Claim C8: every failing chat turn (non-2xx status or unparsable body)
renders a bot-facing error message and leaves the stored session id and
conversational state exactly as they were before the request. -/
theorem claim8_chat_failure_frame (s : ChatbotState) (input : String) (net : ChatOutcome)
    (rnet : ResearchOutcome) (pid : String)
    (hmsg : jsTrim input ≠ "") (hfail : chatFailed net = true) :
    (∃ e, Event.botMessage ("Error: " ++ e ++ ". Please try again.")
        ∈ (handleSendMessage s input net rnet pid).2)
    ∧ (handleSendMessage s input net rnet pid).1.sessionId = s.sessionId
    ∧ (handleSendMessage s input net rnet pid).1.currentState = s.currentState := by
  simp only [handleSendMessage, sendChatMessage, if_neg hmsg]
  cases hgh : getHeaders { s with inputEnabled := false } with
  | error e => exact ⟨⟨e, by simp⟩, by simp, by simp⟩
  | ok hdrs =>
    cases net with
    | ok r => simp [chatFailed] at hfail
    | httpError st =>
      exact ⟨⟨"HTTP error! status: " ++ toString st, by simp⟩, by simp, by simp⟩
    | failure m => exact ⟨⟨m, by simp⟩, by simp, by simp⟩

/-- Witness for claim C8 at a concrete failing chat turn (HTTP 500). -/
theorem claim8_chat_failure_frame_witness :
    jsTrim "hello" ≠ ""
    ∧ chatFailed (ChatOutcome.httpError 500) = true
    ∧ ((∃ e, Event.botMessage ("Error: " ++ e ++ ". Please try again.")
        ∈ (handleSendMessage demoState "hello" (ChatOutcome.httpError 500)
            (ResearchOutcome.httpError 500) "p1").2)
      ∧ (handleSendMessage demoState "hello" (ChatOutcome.httpError 500)
          (ResearchOutcome.httpError 500) "p1").1.sessionId = demoState.sessionId
      ∧ (handleSendMessage demoState "hello" (ChatOutcome.httpError 500)
          (ResearchOutcome.httpError 500) "p1").1.currentState = demoState.currentState) :=
  ⟨by decide, by decide,
   claim8_chat_failure_frame demoState "hello" (ChatOutcome.httpError 500)
     (ResearchOutcome.httpError 500) "p1" (by decide) (by decide)⟩

/-- Claim C9: a blank or whitespace-only input makes the send-message
handler return immediately: no event at all (no request, no rendered
message, no input-gate change) and a completely unchanged state. -/
theorem claim9_blank_input_noop (s : ChatbotState) (input : String)
    (net : ChatOutcome) (rnet : ResearchOutcome) (pid : String)
    (hws : input.toList.all isJsWhitespace = true) :
    handleSendMessage s input net rnet pid = (s, []) := by
  unfold handleSendMessage
  rw [jsTrim_of_all_ws input hws]
  rfl

/-- Witness for claim C9 on a three-space input. -/
theorem claim9_blank_input_noop_witness :
    ("   " : String).toList.all isJsWhitespace = true
    ∧ handleSendMessage demoState "   " (ChatOutcome.httpError 500)
        (ResearchOutcome.httpError 500) "p1" = (demoState, []) :=
  ⟨by decide,
   claim9_blank_input_noop demoState "   " (ChatOutcome.httpError 500)
     (ResearchOutcome.httpError 500) "p1" (by decide)⟩

/-- Claim C10: user-role messages render as a paragraph wrapping the
escapeHtml image of the text, whose output contains no angle bracket at all
(so user text can never introduce markup), while bot-role messages are
inserted through formatMarkdown without such escaping. -/
theorem claim10_user_escaped_bot_formatted (text : String) :
    renderMessageContent text "user" = "<p>" ++ escapeHtml text ++ "</p>"
    ∧ (escapeHtml text).toList.all (fun d => !(d = '<') && !(d = '>')) = true
    ∧ renderMessageContent text "bot" = formatMarkdown text := by
  refine ⟨rfl, escapeHtml_no_markup text, ?_⟩
  simp [renderMessageContent]

end Finsense
